import Mathlib

set_option maxRecDepth 100000

/-!
Shallow embedding of the question-answering core of `src/app.py`
(AskTheBridge): the static answer index, the retrying OpenAI completion
call, the `st.cache_data` response cache, the chat-page submit handler
and the "Ask OpenAI" follow-up handler, together with proofs of the
behavioural properties claimed for them.
-/

namespace TheBridge

/-! ## Python string primitives

`str.strip()` / `str.lower()` / `needle in hay` are modelled on the
character list underlying a `String`.  `lower` is the ASCII fragment of
the Python `str.lower` (the curated data and every string the code
compares contain no cased non-ASCII characters), and `strip` removes the
ASCII whitespace characters. -/

/-- ASCII whitespace, as stripped by `str.strip()`. -/
def isPyWhitespace (c : Char) : Bool :=
  c == ' ' || c == '\t' || c == '\n' || c == '\r' || c.toNat == 11 || c.toNat == 12

/-- ASCII case folding of one character (`str.lower`, ASCII fragment). -/
def lowerChar (c : Char) : Char :=
  if 65 ≤ c.toNat && c.toNat ≤ 90 then Char.ofNat (c.toNat + 32) else c

/-- Python `s.lower()`. -/
def toLowerPy (s : String) : String := ⟨s.data.map lowerChar⟩

/-- Python `s.strip()`: drop leading and trailing whitespace. -/
def stripPy (s : String) : String :=
  ⟨((s.data.dropWhile isPyWhitespace).reverse.dropWhile isPyWhitespace).reverse⟩

/-- Does `needle` occur at the head of `hay`? -/
def matchesAt : List Char → List Char → Bool
  | [], _ => true
  | _ :: _, [] => false
  | c :: cs, d :: ds => c == d && matchesAt cs ds

/-- Python `needle in hay` on character lists (Python substring containment). -/
def containsList (needle : List Char) : List Char → Bool
  | [] => needle.isEmpty
  | c :: t => matchesAt needle (c :: t) || containsList needle t

/-- Python `needle in hay` on strings. -/
def strContains (hay needle : String) : Bool := containsList needle.data hay.data

/-! ## Python `dict`

A Python `dict` is modelled as an association list whose keys stay
unique: assigning to an existing key updates it in place, assigning to a
fresh key appends it.  `List.lookup` (first match) is dict lookup. -/

def dictInsert (d : List (String × String)) (k v : String) : List (String × String) :=
  if d.any (fun kv => kv.1 == k) then
    d.map (fun kv => if kv.1 == k then (k, v) else kv)
  else
    d ++ [(k, v)]

/-! ## The curated static Q&A list (`qa_pairs` in `load_partner_cache`) -/

structure QAPair where
  question : String
  answer : String
deriving DecidableEq, Repr

def qa_pairs : List QAPair := [
  ⟨"My chief stew and chef are in conflict two days before a busy charter. How do I de-escalate this without taking sides or compromising service?",
   "Speak to each individually first: listen, clarify facts, and separate emotion from concrete issues (menus, timing, storage, service style). Restate the shared mission: 'Our job for the next 7 days is to deliver a seamless guest experience; we can revisit personal frustrations after the trip.' Agree on minimum operating rules: service times, handover points, communication channel (e.g. one WhatsApp group, no side channels for ops). Put a simple, written charter schedule in place (service times, special events, provisioning deadlines) and confirm they both sign off. Monitor closely during the first 24 hours of charter and give specific positive feedback when collaboration works ('That breakfast turn-around was spot on, thanks to both of you.')."⟩,
  ⟨"My rotation and leave plan looked fine on paper, but every season I end up with either short-staffing or burnout. What’s a better way to plan rotations?",
   "Start from guest program + maintenance, not from crew headcount: map peak periods, shipyard periods, crossings, owner weeks, and charters. Build a 12-month coverage matrix: for each month, define minimum safe manning by department (bridge, interior, deck, engineering, galley). Add buffer capacity around refit/yard and long crossings; these are the highest fatigue zones. Use rotation templates (e.g. 2:2, 3:1) but adapt per department; engineers and chefs often need different patterns than deck. Run a stress-test: mark months where >30–35% of the crew are 'new'—if that happens in peak guest periods, adjust hiring or contract dates."⟩,
  ⟨"We’re about to switch from private to charter under a different flag. What are the most common compliance pitfalls captains miss in that transition?",
   "Safety equipment & certification: ensure all lifesaving appliances, fire systems and documentation match commercial requirements (not just private). ISM/ISPS documentation: verify Safety Management System, drills records, and security plans are current and aligned with the new flag/management company. Working/rest hours: move from 'owner-flexible' to strictly recorded MLC compliance; audit your last 3 months to avoid surprises at inspection. Crew qualifications: check each role’s minimum safe manning certificate and endorsements for commercial operation. Commercial paperwork: charter contracts, VAT handling, passenger limits – coordinate early with management, broker and legal so you’re aligned before the first charter."⟩,
  ⟨"Port State Control and flag inspectors always seem to find something different. How can I prepare for inspections in a way that’s consistent and less stressful for the crew?",
   "Keep a simple inspection folder (digital + physical) with: certificates, last inspection report, corrective actions, crew lists, drills records and key checklists. Run internal mini-inspections monthly: focus on basic items—LSA, FFA, signage, doors/vents, muster lists, logbooks. Involve crew in the process: assign each head of department 3–5 common findings and make them responsible for 'owning' those areas. After each real inspection, run a short 'lessons learned' debrief and update your checklist; treat it as continuous improvement, not blame. Maintain a calm, transparent tone with inspectors; when they see the ship is organised and cooperative, inspections tend to be smoother."⟩,
  ⟨"Our planned maintenance system is up to date on paper, but we still get nasty surprises in-season (AC failures, sewage issues, stabilisers). What can we change?",
   "Separate “compliance maintenance” (things you must log) from “reliability maintenance” (things that actually ruin a trip when they fail). Build a “Top 20 Critical Failures” list for your yacht (AC, sewage, stabilisers, generators, tenders, galley key equipment) and add extra inspections there. Use data from past seasons: which systems failed and when? Increase inspection frequency and spares holding for those items. Before peak season, run a Red Team walk-through with engineer + chief stew + deck: ask “What would ruin a guest day if it broke right now?” and act on it. Track not just completed tasks, but unplanned downtime; aim to reduce that season-on-season."⟩,
  ⟨"I’m choosing between several refit yards for a big paint and machinery job. Beyond the quote, what should I really look at?",
   "Check yard track record with your size and type of vessel—ask for 2–3 recent captains you can speak to directly. Evaluate project management structure: is there a dedicated PM assigned, with clear communication routines and reporting formats? Assess logistics & location (flights, crew housing, visa, weather windows) and include those costs/risks in your comparison. Review quality control processes: acceptance criteria, warranty terms, and how disputes are handled. Visit if possible: walk the yard, look at housekeeping, safety culture and how work is organised; these soft signals often matter more than the brochure."⟩,
  ⟨"Owner wants a “different” Med season with fewer crowded ports and more unique anchorages, but we must stay safe and practical. How do I approach this?",
   "Start with constraints: yacht draft/LOA, helicopter ops, guest ages, mobility, and any security concerns. Map secondary hubs within each region (e.g. alternatives to St Tropez/Capri/Mykonos) that still have decent provisioning and medical access. Use past AIS and port call data (yours and comparable yachts if available) to avoid patterns everyone else follows. Plan “hero moments” (1–2 special anchorages or off-grid stops) backed by solid weather and escape plans. Present the owner with 2–3 curated itineraries that balance uniqueness with realism—highlighting exactly why each feels different from a classic milk run."⟩,
  ⟨"We’re under pressure to reduce fuel burn but still maintain ambitious itineraries. What are some practical routing strategies I can use?",
   "Optimise transit speeds: small reductions (e.g. from 14 to 11–12 knots) often save disproportionate fuel over a season. Plan shorter legs with more local clusters of experiences instead of long daily hops. Use weather and current routing to minimise head seas and adverse conditions where possible. Coordinate with the owner/charter broker early to align expectations: show a fuel-optimised itinerary vs a “max distance” one. Log fuel burn vs itinerary in a simple dashboard and share trends with the owner/management; this makes future compromises easier to negotiate."⟩,
  ⟨"We get very little information about guest preferences before charters. How can I still deliver a personalised experience without annoying the broker or PA?",
   "Create a simple, visually appealing preference sheet that brokers actually want to forward—less text, more checkboxes and examples. Ask for categories rather than specifics: dietary limits, general food styles, activity level, nightlife vs quiet, kids vs adults focus. Prepare modular experiences: a few ready-to-go “themes” (wellness day, water sports day, local culture day, party night) you can adapt on the fly. Use the first 12–24 hours to quietly observe and adjust: meal portions, timing, music volume, favourite spots onboard. Debrief with the broker post-charter, sharing what worked well; over time, that builds a richer picture for repeat clients."⟩,
  ⟨"The owner’s friends often show up last-minute with no notice. How can I build flexibility into the program without burning out the crew?",
   "Define a “surge plan” with your HoDs: what changes when guest count spikes (service style, turndown, menu complexity, tender schedule). Maintain a basic backup provisioning list with easy, high-quality options that can scale guest numbers quickly. Protect crew core rest hours by temporarily reducing non-critical tasks (deep detailing, non-urgent maintenance) during these spikes. Communicate clearly with the owner/PA about what can and can’t be done last-minute without compromising safety. After each event, review impact on crew fatigue and adjust your surge plan for next time."⟩,
  ⟨"Our operating budget is always blown by the end of the season, especially in maintenance and provisions. How can I make the numbers more predictable?",
   "Break the budget into 4–6 clear buckets (fuel, port/marina, maintenance, provisions, crew, “owner requests”) with monthly caps. Track “unplanned” vs “planned” spend separately; unplanned is where you’ll find improvement opportunities. Use last 2–3 seasons’ actuals to build a more realistic baseline, then add a defined contingency (e.g. 10–15%) rather than pretending it won’t be used. Share a simple monthly one-pager with the owner/management: big spends, savings and reasons; that builds trust and makes future conversations easier. Make at least one small visible saving initiative per season (e.g. shorepower vs generators where feasible) and show the numbers."⟩,
  ⟨"Management is cutting the maintenance budget, but I’m worried we’ll pay more later. How do I argue this without sounding difficult?",
   "Translate technical risk into owner-language: tie maintenance cuts directly to “chance of losing charter days” or “trip disruption risk.” Present scenarios: “If we defer X, probability of failure in season is roughly Y; cost of that failure (lost days + emergency yard time) is Z.” Identify low-impact cuts you can accept (cosmetics, non-critical upgrades) to show you’re being cooperative. Propose a phased plan: what you must do this year, what can safely be postponed, and what should be monitored closely. Keep the tone solution-oriented: “Here are 3 options; my professional recommendation is B.”"⟩,
  ⟨"My owner changes his mind frequently about plans and priorities. How do I manage this without constant chaos on board?",
   "Introduce a simple planning rhythm: e.g. a weekly brief (written or call) where you confirm itinerary, key priorities and any constraints. Summarise decisions back to the owner/PA after each change: “To confirm, we now do X instead of Y, which means Z impact.” Internally, maintain a “stable core” (safety, maintenance, compliance) that doesn’t move, and treat rest as flexible. Build a reputation for being both adaptable and transparent: say “yes” when you can, and clearly explain trade-offs when you can’t. Document major changes in a simple log; this helps avoid blame later and supports your case in future discussions."⟩,
  ⟨"Management company and I don’t always see eye to eye. How do I keep the relationship constructive but protect the vessel’s interests?",
   "Clarify roles and responsibilities in writing: who decides on what (crew, budget, routing, major works, vendors). Use a regular standing call (e.g. bi-weekly) with a fixed agenda: safety, operations, finance, owner feedback, upcoming decisions. When you disagree, separate facts, risks and opinions; propose options with pros/cons rather than “yes/no.” Copy in the right people (e.g. DPA, fleet manager) for issues that affect compliance and safety – that frames it as a professional concern. Keep your tone consistently calm and professional; over time, being the person who brings structured information and solutions increases your influence."⟩,
  ⟨"We had a black water failure during charter—nightmare. What can I implement so this never happens again during a guest trip?",
   "Treat black water and grey water as “mission critical”: review design limits, tank capacities, pump redundancy and venting. Implement pre-charter stress tests: simulate full guest load, run all heads, showers and laundry to confirm flows are stable. Create usage guidelines for guests (discreet, elegant signage + crew script) to reduce abuse. Maintain a spares & tools kit specifically for sewage systems and ensure crew are trained to use it. Review with an external specialist after the season if failures persist; design fixes are often cheaper than repeated emergencies."⟩,
  ⟨"Our stabilisers have become the most unreliable part of the vessel. How do I decide whether to keep repairing or plan for a bigger upgrade?",
   "Log every incident with date, sea state, mode, and impact on guest comfort; patterns matter. Discuss with OEM/service partner: ask for a clear view of expected life, known failure modes and upgrade paths. Cost out the last 2–3 seasons of call-outs, downtime and lost guest days versus an overhaul/upgrade. Consider future itinerary (more crossings? rougher seas?) when evaluating risk. Present management/owner with options (maintain vs major upgrade) including financial and operational implications."⟩,
  ⟨"I’m a first-time captain on a 50–60m. What are the first 3 systems or processes I should review in detail in my first 90 days?",
   "Safety & compliance: SMS, muster lists, drills records, equipment certificates, and how crew actually behave in drills. Maintenance & critical systems: PMS setup, spares strategy, and condition of generators, stabilisers, sewage, AC and tenders. Crew structure & culture: rotations, handover quality, communication routines, and the captain–HoD leadership dynamic. Make a 90-day plan with 3–5 concrete improvements and review it with management/owner’s rep to align expectations."⟩,
  ⟨"Owner wants “more use” of the yacht but crew are already stretched. How do I safely increase days in use without losing people or breaking the boat?",
   "Quantify current vs requested days in use and overlay maintenance windows; show where pressure points occur. Propose a phased increase (e.g. +20% days this year) and define what support changes are needed (extra crew, different rotations, bigger maintenance yard period). Use data from past seasons (unplanned downtime, sick days, crew turnover) as arguments, not feelings. Suggest “smart” extra use (shoulder seasons, off-peak charters) rather than stacking more into already crowded months. Agree in writing on minimum maintenance and rest periods that must remain untouched."⟩,
  ⟨"How can I use data from our operations to have better conversations with the owner about risk, cost and upgrades?",
   "Start small: track 3–5 metrics consistently (days in use, unplanned downtime incidents, fuel burn, major unplanned costs, crew turnover). Present these visually in a simple quarterly one-pager. Use that sheet to frame conversations: “We did X days, had Y incidents, Z unplanned cost – here’s what I recommend for next season.” Link upgrade requests directly to those metrics (e.g. “If we upgrade X, we expect fewer incidents like Y, which cost us €…”). Over time, this shifts conversation from opinions to trend-based decisions."⟩,
  ⟨"We’re constantly reactive. Is there a simple operational rhythm I can install so the boat feels more in control and less firefighting?",
   "Implement a weekly operations meeting with HoDs: last week’s key issues, coming week’s plan, risks and guest highlights. Add a monthly “big picture” review: budget, maintenance, crew wellbeing, upcoming refit or major changes. Use a shared action list (even a simple spreadsheet) with owners, deadlines and status so nothing is just “in someone’s head.” Reserve protected time in the calendar for drills, training and preventative checks – don’t let them be the first thing cancelled. Stick to this rhythm even in quiet times; consistency is what builds a less reactive culture."⟩
]

/-- Model of the dict comprehension that builds `STATIC_QA`: each pair is
assigned under its lowered question text, in order.  A dict comprehension
is a sequence of dict assignments, so later entries silently overwrite
earlier ones whose lowered question coincides. -/
def buildIndex (pairs : List QAPair) : List (String × String) :=
  pairs.foldl (fun d p => dictInsert d (toLowerPy p.question) p.answer) []

def STATIC_QA : List (String × String) := buildIndex qa_pairs

/-! ## CompletionClient: the body of `ask_openai_cached` (src/app.py 351-370)

The remote call is abstracted as a provider observed per attempt number:
each attempt either yields the message content or raises an exception
whose `str(e)` text is recorded.  `RunResult` records everything the loop
did: the string it returned, how many times it invoked the provider, and
the `time.sleep` durations in order. -/

inductive ProviderOutcome where
  | ok (content : String)
  | err (msg : String)
deriving DecidableEq, Repr

/-- Python test `"rate limit" in err.lower() or "429" in err`. -/
def isRateLimit (err : String) : Bool :=
  strContains (toLowerPy err) "rate limit" || strContains err "429"

/-- Holds exactly when the outcome is an exception classified as a rate
limit by `isRateLimit`. -/
def rateErr : ProviderOutcome → Bool
  | .ok _ => false
  | .err m => isRateLimit m

structure RunResult where
  answer : String
  calls : Nat
  sleeps : List Nat
deriving DecidableEq, Repr

/-- The fixed message returned when all three attempts are rate limited. -/
def overloadMsg : String :=
  "⚠️ The system is receiving too many requests right now. Please try again in a few seconds."

/-- The `for attempt in range(3)` retry loop: on success return the
stripped content; on a rate-limit error sleep `5 * (attempt + 1)` and
continue; on any other error return the warning string at once; when the
loop is exhausted return `overloadMsg`.  `fuel` counts the remaining
iterations (`3 - attempt`). -/
def askFrom (provider : Nat → ProviderOutcome) : Nat → Nat → RunResult
  | _, 0 => ⟨overloadMsg, 0, []⟩
  | attempt, fuel + 1 =>
    match provider attempt with
    | .ok content => ⟨stripPy content, 1, []⟩
    | .err msg =>
      if isRateLimit msg then
        let r := askFrom provider (attempt + 1) fuel
        ⟨r.answer, r.calls + 1, 5 * (attempt + 1) :: r.sleeps⟩
      else
        ⟨"⚠️ Error: " ++ msg, 1, []⟩

/-- One execution of the body of `ask_openai_cached`. -/
def ask_openai (provider : Nat → ProviderOutcome) : RunResult :=
  askFrom provider 0 3

/-! ## The `@st.cache_data` response cache -/

/-- The memo store of `st.cache_data`: a dict from the raw argument of
`ask_openai_cached` to the value it returned. -/
abbrev Cache := List (String × String)

/-- The function `ask_openai_cached` as seen through `st.cache_data`: on a hit return
the stored value without running the body; on a miss run the body once,
store its result under the raw argument and return it.  The final `Nat`
counts executions of the cached body. -/
def ask_openai_cached (provider : String → Nat → ProviderOutcome) (cache : Cache)
    (question : String) : String × Cache × Nat :=
  match List.lookup question cache with
  | some v => (v, cache, 0)
  | none =>
    let r := ask_openai (provider question)
    (r.answer, dictInsert cache question r.answer, 1)

/-! ## AnswerDispatcher: `get_answer` (src/app.py 564-568) -/

/-- Normalise with trim+lowercase for the static lookup only; fall through
to the cached completion call on the *raw* input. -/
def get_answer (provider : String → Nat → ProviderOutcome) (cache : Cache)
    (user_input : String) : String × Cache × Nat :=
  match List.lookup (toLowerPy (stripPy user_input)) STATIC_QA with
  | some answer => (answer, cache, 0)
  | none => ask_openai_cached provider cache user_input

/-! ## Chat transcript and persistence (src/app.py 323-332, 576-611, 731-794) -/

/-- One transcript message; `is_static_answer` is the flag the chat page
sets on curated answers (`msg.get("is_static_answer")` reads absent keys
as false). -/
structure Message where
  role : String
  content : String
  is_static_answer : Bool
deriving DecidableEq, Repr

/-- Observable side effects of the chat handlers, in execution order. -/
inductive Ev where
  | appendMsg (m : Message)
  | askCached (question : String)
  | upsertChat (user_email chat_title : String) (messages : List Message)
  | notice (text : String)
deriving DecidableEq, Repr

/-- The function `save_chat_to_db`: one upsert of the whole chat document keyed by
`(user_email, chat_title)`.  `outcome = some e` means the upsert raised
an exception with text `e`; the handler catches it and reports
`st.error(f"Failed to save chat: {e}")` instead of re-raising. -/
def save_chat_to_db (outcome : Option String) (user_email title : String)
    (messages : List Message) : List Ev :=
  match outcome with
  | none => [.upsertChat user_email title messages]
  | some e => [.upsertChat user_email title messages,
               .notice ("Failed to save chat: " ++ e)]

/-- What a chat handler left behind: the transcript, the response cache,
the number of cached-body executions, and the effect trace. -/
structure HandlerResult where
  messages : List Message
  cache : Cache
  calls : Nat
  events : List Ev
deriving DecidableEq, Repr

/-- The submit branch of `show_chat_page` (src/app.py 782-791): on a
non-blank input append the user message, answer it from `STATIC_QA`
(flagged static) or from `ask_openai_cached` on the stripped input,
append the bot message and save the whole chat. -/
def submit_message (provider : String → Nat → ProviderOutcome) (persist : Option String)
    (cache : Cache) (user_email title : String) (messages : List Message)
    (user_input : String) : HandlerResult :=
  if stripPy user_input = "" then ⟨messages, cache, 0, []⟩
  else
    let userMsg : Message := ⟨"user", stripPy user_input, false⟩
    match List.lookup (toLowerPy (stripPy user_input)) STATIC_QA with
    | some answer =>
      let botMsg : Message := ⟨"bot", answer, true⟩
      let msgs := messages ++ [userMsg, botMsg]
      ⟨msgs, cache, 0,
        [.appendMsg userMsg, .appendMsg botMsg]
          ++ save_chat_to_db persist user_email title msgs⟩
    | none =>
      let r := ask_openai_cached provider cache (stripPy user_input)
      let botMsg : Message := ⟨"bot", r.1, false⟩
      let msgs := messages ++ [userMsg, botMsg]
      ⟨msgs, r.2.1, r.2.2,
        [.appendMsg userMsg, .askCached (stripPy user_input), .appendMsg botMsg]
          ++ save_chat_to_db persist user_email title msgs⟩

/-- Python `list.insert(i, x)`: insert before position `i` (append when
`i` is past the end), shifting later elements up by one. -/
def pyInsert {α : Type} (l : List α) (i : Nat) (x : α) : List α :=
  l.take i ++ x :: l.drop i

/-- The "Ask OpenAI" button handler of `render_chat` (src/app.py
593-608): call `ask_openai_cached` on the *content of the clicked
message* (`msg["content"]`) and insert the reply as a bot message right
after position `idx`, then save the whole chat. -/
def ask_openai_follow_up (provider : String → Nat → ProviderOutcome) (persist : Option String)
    (cache : Cache) (user_email title : String) (messages : List Message) (idx : Nat) :
    HandlerResult :=
  match messages[idx]? with
  | none => ⟨messages, cache, 0, []⟩
  | some msg =>
    let r := ask_openai_cached provider cache msg.content
    let botMsg : Message := ⟨"bot", r.1, false⟩
    let msgs := pyInsert messages (idx + 1) botMsg
    ⟨msgs, r.2.1, r.2.2,
      [.askCached msg.content, .appendMsg botMsg]
        ++ save_chat_to_db persist user_email title msgs⟩

/-! ## Concrete data used by the witnesses -/

/-- The first curated pair. -/
def qa1 : QAPair := qa_pairs.getD 0 ⟨"", ""⟩

/-- A provider that always answers. -/
def stubProvider : String → Nat → ProviderOutcome := fun _ _ => .ok "Elaborated answer."

/-- A per-attempt provider that is rate limited twice and then succeeds. -/
def retryProvider : Nat → ProviderOutcome
  | 0 => .err "429 Too Many Requests"
  | 1 => .err "Rate limit hit"
  | _ => .ok "  All good.  "

/-- A provider whose every attempt is rate limited. -/
def allRateProvider : Nat → ProviderOutcome := fun _ => .err "Rate limit exceeded (429)"

/-- A provider that fails at once with a non-rate-limit error. -/
def failProvider : Nat → ProviderOutcome := fun _ => .err "Invalid API key"

/-- A three-message transcript whose second message is a static answer. -/
def demoMessages : List Message :=
  [⟨"user", qa1.question, false⟩, ⟨"bot", qa1.answer, true⟩, ⟨"user", "Thanks!", false⟩]

/-- A pair of entries whose questions lower to the same key. -/
def dupPairs : List QAPair := [⟨"A", "first"⟩, ⟨"a", "second"⟩]

/-- A pair of entries with distinct lowered keys. -/
def twoPairs : List QAPair := [⟨"A", "x"⟩, ⟨"B", "y"⟩]

/-! ## Lemmas about dict lookup and insertion -/

theorem lookup_cons_pair (k1 v1 k : String) (t : List (String × String)) :
    List.lookup k ((k1, v1) :: t) = if k = k1 then some v1 else List.lookup k t := by
  by_cases h : k = k1
  · subst h; simp
  · simp [List.lookup_cons, beq_false_of_ne h, h]

theorem lookup_map_update (k v k' : String) (h : k' ≠ k) (t : List (String × String)) :
    List.lookup k' (t.map (fun kv => if kv.1 == k then (k, v) else kv)) = List.lookup k' t := by
  induction t with
  | nil => rfl
  | cons kv t ih =>
    rcases kv with ⟨k1, v1⟩
    simp only [List.map_cons]
    by_cases hk : k1 = k
    · rw [if_pos (show ((k1, v1).1 == k) = true by simpa using hk)]
      have h2 : ¬k' = k1 := fun he => h (he.trans hk)
      rw [lookup_cons_pair, lookup_cons_pair, ih, if_neg h, if_neg h2]
    · rw [if_neg (show ¬((k1, v1).1 == k) = true by simpa using hk)]
      rw [lookup_cons_pair, lookup_cons_pair, ih]

theorem lookup_map_update_self (k v : String) (t : List (String × String))
    (h : t.any (fun kv => kv.1 == k) = true) :
    List.lookup k (t.map (fun kv => if kv.1 == k then (k, v) else kv)) = some v := by
  induction t with
  | nil => simp at h
  | cons kv t ih =>
    rcases kv with ⟨k1, v1⟩
    simp only [List.map_cons]
    by_cases hk : k1 = k
    · rw [if_pos (show ((k1, v1).1 == k) = true by simpa using hk)]
      rw [lookup_cons_pair, if_pos rfl]
    · rw [if_neg (show ¬((k1, v1).1 == k) = true by simpa using hk)]
      rw [lookup_cons_pair, if_neg (fun he => hk he.symm)]
      refine ih ?_
      have h3 : ((k1, v1).1 == k) = false := by simpa using hk
      simpa [h3] using h

theorem lookup_none_of_any_false (k : String) (t : List (String × String))
    (h : t.any (fun kv => kv.1 == k) = false) :
    List.lookup k t = none := by
  rw [List.lookup_eq_none_iff]
  intro p hp
  have h2 := List.any_eq_false.1 h p hp
  simp only [beq_iff_eq] at h2
  simp only [bne_iff_ne]
  exact fun he => h2 he.symm

theorem lookup_dictInsert (d : List (String × String)) (k v k' : String) :
    List.lookup k' (dictInsert d k v) = if k' = k then some v else List.lookup k' d := by
  unfold dictInsert
  by_cases hany : d.any (fun kv => kv.1 == k) = true
  · rw [if_pos hany]
    by_cases hk : k' = k
    · subst hk; rw [if_pos rfl]; exact lookup_map_update_self k' v d hany
    · rw [if_neg hk]; exact lookup_map_update k v k' hk d
  · have hanyf : d.any (fun kv => kv.1 == k) = false := Bool.eq_false_iff.mpr hany
    rw [if_neg hany, List.lookup_append]
    by_cases hk : k' = k
    · subst hk
      rw [lookup_none_of_any_false k' d hanyf, lookup_cons_pair, if_pos rfl]
      simp
    · rw [if_neg hk, lookup_cons_pair, if_neg hk]
      simp

theorem buildIndex_concat (l : List QAPair) (p : QAPair) :
    buildIndex (l ++ [p]) = dictInsert (buildIndex l) (toLowerPy p.question) p.answer := by
  simp [buildIndex, List.foldl_append]

/-- Dict-comprehension semantics: the index retrieves the answer of the
*last* source entry whose lowered question is the key. -/
theorem lookup_buildIndex (pairs : List QAPair) (k : String) :
    List.lookup k (buildIndex pairs) =
      ((pairs.filter (fun p => toLowerPy p.question == k)).getLast?).map QAPair.answer := by
  induction pairs using List.reverseRecOn with
  | nil => rfl
  | append_singleton l p ih =>
    rw [buildIndex_concat, lookup_dictInsert, List.filter_append]
    by_cases hk : k = toLowerPy p.question
    · subst hk
      rw [if_pos rfl]
      have hf : List.filter (fun q => (toLowerPy q.question == toLowerPy p.question)) [p]
          = [p] := by simp
      rw [hf, List.getLast?_concat]
      rfl
    · rw [if_neg hk]
      have hf : List.filter (fun q => (toLowerPy q.question == k)) [p] = [] := by
        rw [List.filter_eq_nil_iff]
        intro a ha
        rw [List.mem_singleton] at ha
        subst ha
        simp only [beq_iff_eq]
        exact fun he => hk he.symm
      rw [hf, List.append_nil, ih]

/-- With pairwise-distinct lowered questions, exactly the entry itself
survives the key filter. -/
theorem filter_key_of_nodup (pairs : List QAPair)
    (hnd : (pairs.map (fun p => toLowerPy p.question)).Nodup)
    (p : QAPair) (hp : p ∈ pairs) :
    pairs.filter (fun q => toLowerPy q.question == toLowerPy p.question) = [p] := by
  induction pairs with
  | nil => cases hp
  | cons q t ih =>
    rw [List.map_cons, List.nodup_cons] at hnd
    rcases List.mem_cons.1 hp with rfl | hpt
    · have hf : List.filter (fun r => toLowerPy r.question == toLowerPy p.question) t = [] := by
        rw [List.filter_eq_nil_iff]
        intro r hr hc
        exact hnd.1 (by
          rw [beq_iff_eq] at hc
          exact hc ▸ List.mem_map_of_mem (fun s => toLowerPy s.question) hr)
      rw [List.filter_cons]
      simp [hf]
    · have hq : (toLowerPy q.question == toLowerPy p.question) = false := by
        rw [beq_eq_false_iff_ne]
        intro he
        exact hnd.1 (he ▸ List.mem_map_of_mem (fun s => toLowerPy s.question) hpt)
      rw [List.filter_cons_of_neg (by simp [hq])]
      exact ih hnd.2 hpt

/-! ## Lemmas about substring containment -/

theorem matchesAt_append (l r : List Char) : matchesAt l (l ++ r) = true := by
  induction l with
  | nil => rfl
  | cons c cs ih => simp [matchesAt, ih]

theorem containsList_append_left (pre l : List Char) : containsList l (pre ++ l) = true := by
  induction pre with
  | nil =>
    cases l with
    | nil => rfl
    | cons c t =>
      have h := matchesAt_append (c :: t) []
      rw [List.append_nil] at h
      simp [containsList, h]
  | cons p pre ih => simp [containsList, ih]

theorem strContains_append_left (pre m : String) : strContains (pre ++ m) m = true := by
  show containsList m.data (pre ++ m).data = true
  have h : (pre ++ m).data = pre.data ++ m.data := by
    rcases pre with ⟨d1⟩; rcases m with ⟨d2⟩; rfl
  rw [h]
  exact containsList_append_left pre.data m.data

/-! ## Lemmas about `pyInsert` -/

theorem pyInsert_cons {α : Type} (a : α) (t : List α) (i : Nat) (x : α) :
    pyInsert (a :: t) (i + 1) x = a :: pyInsert t i x := rfl

theorem pyInsert_getElem_self {α : Type} (l : List α) (i : Nat) (x : α) (h : i ≤ l.length) :
    (pyInsert l i x)[i]? = some x := by
  induction l generalizing i with
  | nil =>
    cases i with
    | zero => rfl
    | succ i => simp at h
  | cons a t ih =>
    cases i with
    | zero => rfl
    | succ i =>
      rw [pyInsert_cons]
      simpa using ih i (by simpa using h)

theorem pyInsert_getElem_shift {α : Type} (l : List α) (i : Nat) (x : α) (j : Nat)
    (h : i ≤ j) :
    (pyInsert l i x)[j + 1]? = l[j]? := by
  induction l generalizing i j with
  | nil =>
    have he : pyInsert ([] : List α) i x = [x] := by simp [pyInsert]
    rw [he]
    simp
  | cons a t ih =>
    cases i with
    | zero =>
      show (x :: a :: t)[j + 1]? = (a :: t)[j]?
      simp
    | succ i =>
      cases j with
      | zero => omega
      | succ j =>
        rw [pyInsert_cons]
        simpa using ih i j (by omega)

/-! ## The retry loop -/

/-- When every attempt is rate limited the loop makes all three calls,
sleeps after each of them (including the last) and returns the overload
message. -/
theorem ask_openai_all_rate (provider : Nat → ProviderOutcome)
    (h : ∀ n, n < 3 → rateErr (provider n) = true) :
    ask_openai provider = ⟨overloadMsg, 3, [5, 10, 15]⟩ := by
  have h0 := h 0 (by omega)
  have h1 := h 1 (by omega)
  have h2 := h 2 (by omega)
  rw [ask_openai]
  cases hp0 : provider 0 with
  | ok c => rw [hp0] at h0; simp [rateErr] at h0
  | err m0 =>
    rw [hp0] at h0
    simp only [rateErr] at h0
    cases hp1 : provider 1 with
    | ok c => rw [hp1] at h1; simp [rateErr] at h1
    | err m1 =>
      rw [hp1] at h1
      simp only [rateErr] at h1
      cases hp2 : provider 2 with
      | ok c => rw [hp2] at h2; simp [rateErr] at h2
      | err m2 =>
        rw [hp2] at h2
        simp only [rateErr] at h2
        simp [askFrom, hp0, hp1, hp2, h0, h1, h2]

/-- Claim C3: If the provider is rate limited on the first two attempts and
succeeds on the third, `ask_openai` returns the (stripped) successful
content after exactly three calls, and the waits inserted between
attempts are 5 and 10 time units, `5 + 10` in total. -/
theorem c3_retry_backoff_then_success (provider : Nat → ProviderOutcome) (e0 e1 c : String)
    (hp0 : provider 0 = .err e0) (hr0 : isRateLimit e0 = true)
    (hp1 : provider 1 = .err e1) (hr1 : isRateLimit e1 = true)
    (hp2 : provider 2 = .ok c) :
    ask_openai provider = ⟨stripPy c, 3, [5, 10]⟩ ∧
    (ask_openai provider).sleeps.sum = 5 + 10 := by
  have hmain : ask_openai provider = ⟨stripPy c, 3, [5, 10]⟩ := by
    rw [ask_openai]
    simp [askFrom, hp0, hp1, hp2, hr0, hr1]
  exact ⟨hmain, by rw [hmain]; simp⟩

/-- Witness for C3: The schedule above on a concrete provider. -/
theorem c3_retry_backoff_then_success_witness :
    (retryProvider 0 = .err "429 Too Many Requests" ∧
      isRateLimit "429 Too Many Requests" = true ∧
      retryProvider 1 = .err "Rate limit hit" ∧
      isRateLimit "Rate limit hit" = true ∧
      retryProvider 2 = .ok "  All good.  ") ∧
    ask_openai retryProvider = ⟨stripPy "  All good.  ", 3, [5, 10]⟩ ∧
    (ask_openai retryProvider).sleeps.sum = 5 + 10 :=
  ⟨⟨rfl, by decide, rfl, by decide, rfl⟩,
    c3_retry_backoff_then_success retryProvider _ _ _ rfl (by decide) rfl (by decide) rfl⟩

/-- Claim C4: If all three attempts are rate limited, `ask_openai` returns
the fixed overload message as an ordinary string: the modelled function
is total, mirroring the policy of the source of converting every failure into
a returned string rather than an exception. -/
theorem c4_overload_string (provider : Nat → ProviderOutcome)
    (h : ∀ n, n < 3 → rateErr (provider n) = true) :
    (ask_openai provider).answer = overloadMsg := by
  rw [ask_openai_all_rate provider h]

/-- Witness for C4: A provider that is always rate limited. -/
theorem c4_overload_string_witness :
    (∀ n, n < 3 → rateErr (allRateProvider n) = true) ∧
    (ask_openai allRateProvider).answer = overloadMsg :=
  ⟨by decide, c4_overload_string allRateProvider (by decide)⟩

/-- Claim C10: When all three attempts are rate limited the loop sleeps
after every failed attempt, including the final one: the recorded waits
are 5, 10 and then 15 time units, 30 in total, even though no further
attempt follows the last sleep. -/
theorem c10_sleep_after_last_attempt (provider : Nat → ProviderOutcome)
    (h : ∀ n, n < 3 → rateErr (provider n) = true) :
    (ask_openai provider).sleeps = [5, 10, 15] ∧
    (ask_openai provider).sleeps.sum = 5 + 10 + 15 := by
  rw [ask_openai_all_rate provider h]
  exact ⟨rfl, rfl⟩

/-- Witness for C10: The same concrete always-rate-limited provider. -/
theorem c10_sleep_after_last_attempt_witness :
    (∀ n, n < 3 → rateErr (allRateProvider n) = true) ∧
    (ask_openai allRateProvider).sleeps = [5, 10, 15] ∧
    (ask_openai allRateProvider).sleeps.sum = 5 + 10 + 15 :=
  ⟨by decide, c10_sleep_after_last_attempt allRateProvider (by decide)⟩

/-- Claim C5: A non-rate-limit error on any attempt `k` stops the loop at
once: no further provider call is made and no wait is inserted at or
after the failing attempt (only the `5 * (j + 1)` waits of the earlier
rate-limited attempts remain), and the returned string is the error text
behind the `⚠️ Error: ` warning marker, so it contains the error text. -/
theorem c5_other_error_immediate (provider : Nat → ProviderOutcome) (m : String) (k : Nat)
    (hk : k < 3)
    (hbefore : ∀ j, j < k → rateErr (provider j) = true)
    (hpk : provider k = .err m) (hm : isRateLimit m = false) :
    ask_openai provider =
      ⟨"⚠️ Error: " ++ m, k + 1, (List.range k).map (fun j => 5 * (j + 1))⟩ ∧
    strContains ("⚠️ Error: " ++ m) m = true := by
  refine ⟨?_, strContains_append_left _ m⟩
  interval_cases k
  · rw [ask_openai]
    simp [askFrom, hpk, hm]
  · have h0 := hbefore 0 (by omega)
    cases hp0 : provider 0 with
    | ok c => rw [hp0] at h0; simp [rateErr] at h0
    | err m0 =>
      rw [hp0] at h0
      simp only [rateErr] at h0
      rw [ask_openai]
      simp [askFrom, hp0, h0, hpk, hm, List.range_succ]
  · have h0 := hbefore 0 (by omega)
    have h1 := hbefore 1 (by omega)
    cases hp0 : provider 0 with
    | ok c => rw [hp0] at h0; simp [rateErr] at h0
    | err m0 =>
      rw [hp0] at h0
      simp only [rateErr] at h0
      cases hp1 : provider 1 with
      | ok c => rw [hp1] at h1; simp [rateErr] at h1
      | err m1 =>
        rw [hp1] at h1
        simp only [rateErr] at h1
        rw [ask_openai]
        simp [askFrom, hp0, hp1, h0, h1, hpk, hm, List.range_succ]

/-- Witness for C5: A provider that fails with `Invalid API key` on its
first attempt. -/
theorem c5_other_error_immediate_witness :
    (0 < 3 ∧ failProvider 0 = .err "Invalid API key" ∧
      isRateLimit "Invalid API key" = false) ∧
    ask_openai failProvider =
      ⟨"⚠️ Error: " ++ "Invalid API key", 0 + 1,
        (List.range 0).map (fun j => 5 * (j + 1))⟩ ∧
    strContains ("⚠️ Error: " ++ "Invalid API key") "Invalid API key" = true :=
  ⟨⟨by decide, rfl, by decide⟩,
    c5_other_error_immediate failProvider "Invalid API key" 0 (by decide)
      (by intro j hj; omega) rfl (by decide)⟩

/-- A string whose lowering is empty is empty. -/
theorem toLowerPy_eq_empty {s : String} (h : toLowerPy s = "") : s = "" := by
  rcases s with ⟨data⟩
  cases data with
  | nil => rfl
  | cons c t =>
    exfalso
    have h2 := congrArg String.data h
    have h3 : ("" : String).data = [] := rfl
    rw [h3] at h2
    exact List.cons_ne_nil _ _ h2

/-! ## The static index on the curated data -/

/-- Each curated question, lowered, retrieves its curated answer:
the twenty lowered questions are pairwise distinct in the source data. -/
theorem static_lookup_curated :
    ∀ p ∈ qa_pairs, List.lookup (toLowerPy p.question) STATIC_QA = some p.answer := by
  decide

/-- No curated question is empty. -/
theorem curated_question_ne_empty : ∀ p ∈ qa_pairs, toLowerPy p.question ≠ "" := by
  decide

/-- Claim C1: An input whose trim+lowercase normalisation equals the
lowered text of a curated question is answered from the static index:
`get_answer` returns the curated answer untouched by the cache with zero
completion-body executions, and the chat-page submit handler appends the
curated answer flagged `is_static_answer = true`, leaves the cache
alone, performs no completion call and emits no `askCached` event. -/
theorem c1_static_answer (provider : String → Nat → ProviderOutcome)
    (persist : Option String) (cache : Cache) (user_email title : String)
    (messages : List Message) (input : String) (p : QAPair) (hp : p ∈ qa_pairs)
    (h : toLowerPy (stripPy input) = toLowerPy p.question) :
    get_answer provider cache input = (p.answer, cache, 0) ∧
    submit_message provider persist cache user_email title messages input =
      ⟨messages ++ [⟨"user", stripPy input, false⟩, ⟨"bot", p.answer, true⟩], cache, 0,
        [.appendMsg ⟨"user", stripPy input, false⟩, .appendMsg ⟨"bot", p.answer, true⟩]
          ++ save_chat_to_db persist user_email title
              (messages ++ [⟨"user", stripPy input, false⟩, ⟨"bot", p.answer, true⟩])⟩ ∧
    (∀ s, Ev.askCached s ∉
      (submit_message provider persist cache user_email title messages input).events) := by
  have hlk := static_lookup_curated p hp
  have hne : stripPy input ≠ "" := by
    intro h0
    apply curated_question_ne_empty p hp
    rw [← h, h0]
    rfl
  have hsub : submit_message provider persist cache user_email title messages input =
      ⟨messages ++ [⟨"user", stripPy input, false⟩, ⟨"bot", p.answer, true⟩], cache, 0,
        [.appendMsg ⟨"user", stripPy input, false⟩, .appendMsg ⟨"bot", p.answer, true⟩]
          ++ save_chat_to_db persist user_email title
              (messages ++ [⟨"user", stripPy input, false⟩, ⟨"bot", p.answer, true⟩])⟩ := by
    unfold submit_message
    rw [if_neg hne, h, hlk]
  refine ⟨?_, hsub, ?_⟩
  · unfold get_answer
    rw [h, hlk]
  · intro s
    rw [hsub]
    cases persist <;> simp [save_chat_to_db]

/-- Witness for C1: The first curated question, asked verbatim. -/
theorem c1_static_answer_witness :
    (qa1 ∈ qa_pairs ∧ toLowerPy (stripPy qa1.question) = toLowerPy qa1.question) ∧
    get_answer stubProvider [] qa1.question = (qa1.answer, [], 0) ∧
    submit_message stubProvider none [] "guest" "Chat 1" [] qa1.question =
      ⟨[⟨"user", stripPy qa1.question, false⟩, ⟨"bot", qa1.answer, true⟩], [], 0,
        [.appendMsg ⟨"user", stripPy qa1.question, false⟩,
         .appendMsg ⟨"bot", qa1.answer, true⟩]
          ++ save_chat_to_db none "guest" "Chat 1"
              [⟨"user", stripPy qa1.question, false⟩, ⟨"bot", qa1.answer, true⟩]⟩ := by
  have h := c1_static_answer stubProvider none [] "guest" "Chat 1" [] qa1.question qa1
    (by decide) (by decide)
  exact ⟨⟨by decide, by decide⟩, h.1, by
    have h2 := h.2.1
    simpa using h2⟩

/-- Claim C2: For an input that misses the static index, resolving it twice
with identical raw text executes the completion body at most once in
total: the second resolution is a cache hit that returns the first
value computed by the first resolution and leaves the cache unchanged. -/
theorem c2_cached_at_most_once (provider : String → Nat → ProviderOutcome)
    (cache : Cache) (q : String)
    (hmiss : List.lookup (toLowerPy (stripPy q)) STATIC_QA = none) :
    (get_answer provider cache q).2.2 +
      (get_answer provider (get_answer provider cache q).2.1 q).2.2 ≤ 1 ∧
    (get_answer provider (get_answer provider cache q).2.1 q).2.2 = 0 ∧
    (get_answer provider (get_answer provider cache q).2.1 q).1 =
      (get_answer provider cache q).1 ∧
    (get_answer provider (get_answer provider cache q).2.1 q).2.1 =
      (get_answer provider cache q).2.1 := by
  unfold get_answer
  rw [hmiss]
  unfold ask_openai_cached
  cases hc : List.lookup q cache with
  | some v => simp [hc]
  | none => simp [hc, lookup_dictInsert]

/-- Witness for C2: the non-curated example question from the spec. -/
theorem c2_cached_at_most_once_witness :
    List.lookup (toLowerPy (stripPy "What's the weather in Monaco?")) STATIC_QA = none ∧
    (get_answer stubProvider [] "What's the weather in Monaco?").2.2 +
      (get_answer stubProvider
        (get_answer stubProvider [] "What's the weather in Monaco?").2.1
        "What's the weather in Monaco?").2.2 ≤ 1 ∧
    (get_answer stubProvider
      (get_answer stubProvider [] "What's the weather in Monaco?").2.1
      "What's the weather in Monaco?").2.2 = 0 ∧
    (get_answer stubProvider
      (get_answer stubProvider [] "What's the weather in Monaco?").2.1
      "What's the weather in Monaco?").1 =
      (get_answer stubProvider [] "What's the weather in Monaco?").1 ∧
    (get_answer stubProvider
      (get_answer stubProvider [] "What's the weather in Monaco?").2.1
      "What's the weather in Monaco?").2.1 =
      (get_answer stubProvider [] "What's the weather in Monaco?").2.1 :=
  ⟨by decide, c2_cached_at_most_once stubProvider [] "What's the weather in Monaco?" (by decide)⟩

/-- Claim C8: The response cache is keyed by the raw input: two distinct
raw inputs (in particular two that differ only in letter case or in
surrounding whitespace) that both miss the static index and the cache
each execute the completion body once, and each is stored under its own
raw text — only the static-index lookup normalises. -/
theorem c8_raw_cache_key (provider : String → Nat → ProviderOutcome) (cache : Cache)
    (s1 s2 : String) (hne : s1 ≠ s2)
    (h1 : List.lookup (toLowerPy (stripPy s1)) STATIC_QA = none)
    (h2 : List.lookup (toLowerPy (stripPy s2)) STATIC_QA = none)
    (hc1 : List.lookup s1 cache = none)
    (hc2 : List.lookup s2 cache = none) :
    (get_answer provider cache s1).2.2 = 1 ∧
    (get_answer provider cache s1).2.1 =
      dictInsert cache s1 (get_answer provider cache s1).1 ∧
    (get_answer provider (get_answer provider cache s1).2.1 s2).2.2 = 1 ∧
    (get_answer provider (get_answer provider cache s1).2.1 s2).2.1 =
      dictInsert (get_answer provider cache s1).2.1 s2
        (get_answer provider (get_answer provider cache s1).2.1 s2).1 := by
  unfold get_answer
  rw [h1, h2]
  unfold ask_openai_cached
  rw [hc1]
  have hlk : List.lookup s2 (dictInsert cache s1 (ask_openai (provider s1)).answer) = none := by
    rw [lookup_dictInsert, if_neg (Ne.symm hne), hc2]
  simp [hlk]

/-- Witness for C8: the inputs `"Hello"` and `"hello"` differ only in case, miss the
static index and get separate cache entries and separate completion
calls. -/
theorem c8_raw_cache_key_witness :
    ("Hello" ≠ "hello" ∧
      List.lookup (toLowerPy (stripPy "Hello")) STATIC_QA = none ∧
      List.lookup (toLowerPy (stripPy "hello")) STATIC_QA = none) ∧
    (get_answer stubProvider [] "Hello").2.2 = 1 ∧
    (get_answer stubProvider [] "Hello").2.1 =
      dictInsert [] "Hello" (get_answer stubProvider [] "Hello").1 ∧
    (get_answer stubProvider (get_answer stubProvider [] "Hello").2.1 "hello").2.2 = 1 ∧
    (get_answer stubProvider (get_answer stubProvider [] "Hello").2.1 "hello").2.1 =
      dictInsert (get_answer stubProvider [] "Hello").2.1 "hello"
        (get_answer stubProvider (get_answer stubProvider [] "Hello").2.1 "hello").1 :=
  ⟨⟨by decide, by decide, by decide⟩,
    c8_raw_cache_key stubProvider [] "Hello" "hello" (by decide) (by decide) (by decide)
      rfl rfl⟩

/-- Claim C9: Building the index: a lookup retrieves the answer of the
*last* source entry whose lowered question is the key, so when two
entries collide the later one silently overwrites the earlier; and when
the lowered questions are pairwise distinct the answer of every entry is
retrievable. -/
theorem c9_last_write_wins (pairs : List QAPair) (k : String) :
    List.lookup k (buildIndex pairs) =
      ((pairs.filter (fun p => toLowerPy p.question == k)).getLast?).map QAPair.answer ∧
    ((pairs.map (fun p => toLowerPy p.question)).Nodup →
      ∀ p ∈ pairs, List.lookup (toLowerPy p.question) (buildIndex pairs) = some p.answer) := by
  refine ⟨lookup_buildIndex pairs k, fun hnd p hp => ?_⟩
  rw [lookup_buildIndex, filter_key_of_nodup pairs hnd p hp]
  rfl

/-- Witness for C9: A colliding pair where the later entry wins, and a
collision-free pair where both entries are retrievable. -/
theorem c9_last_write_wins_witness :
    List.lookup "a" (buildIndex dupPairs) =
      ((dupPairs.filter (fun p => toLowerPy p.question == "a")).getLast?).map QAPair.answer ∧
    List.lookup "a" (buildIndex dupPairs) = some "second" ∧
    List.lookup (toLowerPy "A") (buildIndex twoPairs) = some "x" := by
  refine ⟨(c9_last_write_wins dupPairs "a").1, ?_, ?_⟩
  · rw [(c9_last_write_wins dupPairs "a").1]
    decide
  · exact (c9_last_write_wins twoPairs "a").2 (by decide) ⟨"A", "x"⟩ (by decide)

/-- Claim C7: A non-blank submit appends the user and bot messages and then
performs, within the same handler, one synchronous upsert of the *whole*
updated chat document keyed by `(user_email, title)`: the
`save_chat_to_db` effects are a suffix of the event trace, so the upsert
follows every append and its payload contains every appended message.
When the upsert raises, the failure is reported as a non-fatal
`st.error` notice, and the conclusion on `messages` is unchanged: the
in-memory appends are not rolled back. -/
theorem c7_upsert_whole_chat (provider : String → Nat → ProviderOutcome)
    (persist : Option String) (cache : Cache) (user_email title : String)
    (messages : List Message) (input : String) (h : stripPy input ≠ "") :
    ((submit_message provider persist cache user_email title messages input).messages.take
        messages.length = messages ∧
      (submit_message provider persist cache user_email title messages input).messages.length =
        messages.length + 2) ∧
    save_chat_to_db persist user_email title
        (submit_message provider persist cache user_email title messages input).messages <:+
      (submit_message provider persist cache user_email title messages input).events ∧
    Ev.upsertChat user_email title
        (submit_message provider persist cache user_email title messages input).messages ∈
      (submit_message provider persist cache user_email title messages input).events ∧
    (∀ m, Ev.appendMsg m ∈
        (submit_message provider persist cache user_email title messages input).events →
      m ∈ (submit_message provider persist cache user_email title messages input).messages) ∧
    (∀ e, persist = some e →
      Ev.notice ("Failed to save chat: " ++ e) ∈
        (submit_message provider persist cache user_email title messages input).events) := by
  unfold submit_message
  rw [if_neg h]
  cases hst : List.lookup (toLowerPy (stripPy input)) STATIC_QA with
  | some answer =>
    refine ⟨⟨by simp, by simp⟩, ⟨_, rfl⟩, ?_, ?_, ?_⟩
    · cases persist <;> simp [save_chat_to_db]
    · intro m hm
      cases persist <;> simp [save_chat_to_db] at hm <;> rcases hm with rfl | rfl <;> simp
    · intro e he
      subst he
      simp [save_chat_to_db]
  | none =>
    refine ⟨⟨by simp, by simp⟩, ⟨_, rfl⟩, ?_, ?_, ?_⟩
    · cases persist <;> simp [save_chat_to_db]
    · intro m hm
      cases persist <;> simp [save_chat_to_db] at hm <;> rcases hm with rfl | rfl <;> simp
    · intro e he
      subst he
      simp [save_chat_to_db]

/-- Witness for C7: A non-curated question submitted while the
persistence collaborator is down: the append survives, the upsert of the
whole document is attempted and the failure becomes a notice. -/
theorem c7_upsert_whole_chat_witness :
    (stripPy "hello" ≠ "" ∧ (some "connection lost" : Option String) = some "connection lost") ∧
    ((submit_message stubProvider (some "connection lost") [] "guest" "Chat 1" [] "hello").messages.take
        ([] : List Message).length = ([] : List Message) ∧
      (submit_message stubProvider (some "connection lost") [] "guest" "Chat 1" [] "hello").messages.length =
        ([] : List Message).length + 2) ∧
    save_chat_to_db (some "connection lost") "guest" "Chat 1"
        (submit_message stubProvider (some "connection lost") [] "guest" "Chat 1" [] "hello").messages <:+
      (submit_message stubProvider (some "connection lost") [] "guest" "Chat 1" [] "hello").events ∧
    Ev.upsertChat "guest" "Chat 1"
        (submit_message stubProvider (some "connection lost") [] "guest" "Chat 1" [] "hello").messages ∈
      (submit_message stubProvider (some "connection lost") [] "guest" "Chat 1" [] "hello").events ∧
    Ev.notice ("Failed to save chat: " ++ "connection lost") ∈
      (submit_message stubProvider (some "connection lost") [] "guest" "Chat 1" [] "hello").events := by
  have h := c7_upsert_whole_chat stubProvider (some "connection lost") [] "guest" "Chat 1" []
    "hello" (by decide)
  exact ⟨⟨by decide, rfl⟩, h.1, h.2.1, h.2.2.1, h.2.2.2.2 "connection lost" rfl⟩

/-- Counterexample for C6: In a transcript whose second message is the
static answer to the first curated question, triggering the "Ask OpenAI"
follow-up at index 1 invokes the cached completion call on the *answer
text* of the clicked bot message — the original question text is never
passed to the completion client, refuting the claim as stated. -/
theorem c6_counterexample :
    Ev.askCached qa1.answer ∈
      (ask_openai_follow_up stubProvider none [] "guest" "Chat 1" demoMessages 1).events ∧
    Ev.askCached qa1.question ∉
      (ask_openai_follow_up stubProvider none [] "guest" "Chat 1" demoMessages 1).events := by
  decide

/-- Claim C6 as amended: Triggering the "Ask OpenAI" follow-up on the
message at index `idx` invokes the cached completion call on that
content of that message (for a static answer: the curated answer text), and
the resulting bot message is inserted at index `idx + 1` — immediately
after the clicked message, not appended at the end — shifting every
later message up by one position. -/
theorem c6_follow_up_inserts_after (provider : String → Nat → ProviderOutcome)
    (persist : Option String) (cache : Cache) (user_email title : String)
    (messages : List Message) (idx : Nat) (msg : Message)
    (h : messages[idx]? = some msg) :
    (ask_openai_follow_up provider persist cache user_email title messages idx).messages =
      messages.take (idx + 1) ++
        (⟨"bot", (ask_openai_cached provider cache msg.content).1, false⟩ : Message) ::
          messages.drop (idx + 1) ∧
    Ev.askCached msg.content ∈
      (ask_openai_follow_up provider persist cache user_email title messages idx).events ∧
    (ask_openai_follow_up provider persist cache user_email title messages idx).messages[idx + 1]? =
      some ⟨"bot", (ask_openai_cached provider cache msg.content).1, false⟩ ∧
    (∀ j, idx + 1 ≤ j →
      (ask_openai_follow_up provider persist cache user_email title messages idx).messages[j + 1]? =
        messages[j]?) := by
  have hlen : idx < messages.length := by
    by_contra hle
    rw [List.getElem?_eq_none (by omega)] at h
    cases h
  unfold ask_openai_follow_up
  rw [h]
  refine ⟨rfl, by simp, ?_, ?_⟩
  · exact pyInsert_getElem_self messages (idx + 1) _ (by omega)
  · intro j hj
    exact pyInsert_getElem_shift messages (idx + 1) _ j hj

/-- Witness for the amended C6: The concrete three-message transcript: the inserted
supplementary answer lands at index 2, between the static answer and the
trailing user message. -/
theorem c6_follow_up_inserts_after_witness :
    demoMessages[1]? = some ⟨"bot", qa1.answer, true⟩ ∧
    (ask_openai_follow_up stubProvider none [] "guest" "Chat 1" demoMessages 1).messages =
      demoMessages.take 2 ++
        (⟨"bot", (ask_openai_cached stubProvider []
            (⟨"bot", qa1.answer, true⟩ : Message).content).1, false⟩ : Message) ::
          demoMessages.drop 2 ∧
    Ev.askCached (⟨"bot", qa1.answer, true⟩ : Message).content ∈
      (ask_openai_follow_up stubProvider none [] "guest" "Chat 1" demoMessages 1).events ∧
    (ask_openai_follow_up stubProvider none [] "guest" "Chat 1" demoMessages 1).messages[2]? =
      some ⟨"bot", (ask_openai_cached stubProvider []
        (⟨"bot", qa1.answer, true⟩ : Message).content).1, false⟩ := by
  have h := c6_follow_up_inserts_after stubProvider none [] "guest" "Chat 1" demoMessages 1
    ⟨"bot", qa1.answer, true⟩ (by decide)
  exact ⟨by decide, h.1, h.2.1, h.2.2.1⟩

end TheBridge
